import Mathlib

/-!
Shallow embedding of the agent-looker-poc orchestration core
(`src/state.py`, `src/graph.py`, `src/cli.py` and the node functions under
`src/nodes/`), together with theorems settling the claims about it.

Conventions of the embedding:
* Python `float` confidences are embedded as `Rat`; the threshold literal
  `0.8` is `(0.8 : Rat)`.
* A Python value that may be `None` is an `Option`.
* Python dict key lookups of the form `d.get(k, default)` on records parsed
  from JSON are represented by records whose fields already carry the
  value-or-default; absent keys are the stated defaults.
* Calls to the external LLM (`adapter.invoke`) and to external tools
  (`adapter.invoke_tool`) are oracles passed as arguments: `Except.error e`
  models a raised exception with message `e`, `Except.ok` a normal return.
  The `json.loads` decode of an LLM reply is likewise an oracle value
  (`Decode`), since the JSON library is external to the repository.
-/

namespace AgentLooker

/-- A field dict as returned by `get_dimensions` / `get_measures`
(`{name, label, type, description?}`); lookups with their `.get` defaults
applied. -/
structure LookField where
  name : String
  label : String
  ftype : String
  description : String
deriving DecidableEq, Repr

/-- One entry of `schema["explores"]` in `discover.py` (full explore detail). -/
structure ExploreDetail where
  model : String
  name : String
  label : String
  description : String
  dimensions : List LookField
  measures : List LookField
deriving DecidableEq, Repr

/-- One entry of a model's `explores` list built in `discover.py`. -/
structure ExploreSummary where
  name : String
  label : String
  description : String
  dimension_count : Nat
  measure_count : Nat
deriving DecidableEq, Repr

/-- One entry of `schema["models"]` built in `discover.py`. -/
structure LookerModel where
  name : String
  label : String
  explores : List ExploreSummary
deriving DecidableEq, Repr

/-- Embedding of `ProjectSchema` from `state.py`: the `explores` dict is an ordered
association list keyed by `"model.explore"`, with Python-dict overwrite
semantics (see `dictInsert`). -/
structure ProjectSchema where
  models : List LookerModel
  explores : List (String × ExploreDetail)
deriving DecidableEq, Repr

/-- Python `dict[key] = value`: overwrite in place if the key exists,
else append. -/
def dictInsert (m : List (String × ExploreDetail)) (k : String) (v : ExploreDetail) :
    List (String × ExploreDetail) :=
  if m.any (fun p => p.1 == k) then
    m.map (fun p => if p.1 == k then (k, v) else p)
  else
    m ++ [(k, v)]

/-- Python `schema["explores"].get(key)`. -/
def lookupExplore (s : ProjectSchema) (k : String) : Option ExploreDetail :=
  (s.explores.find? (fun p => p.1 == k)).map Prod.snd

/-- Embedding of `FieldSelection` from `state.py`; `filters` is an ordered assoc list. -/
structure FieldSelection where
  model : String
  explore : String
  dimensions : List String
  measures : List String
  filters : List (String × String)
deriving DecidableEq, Repr

/-- A message in the conversation history: either a LangChain message object
(carrying `.type`, e.g. `"human"`/`"ai"`) or a plain dict with a `role` key —
the node code handles both shapes. -/
inductive Msg where
  | typed (ty : String) (content : String)
  | dict (role : String) (content : String)
deriving DecidableEq, Repr

/-- Embedding of `AgentState` from `state.py`. -/
structure AgentState where
  messages : List Msg
  project_schema : Option ProjectSchema
  schema_loaded : Bool
  current_query : Option String
  intent : Option String
  field_selection : Option FieldSelection
  confidence : Rat
  clarifying_questions : Option (List String)
  needs_clarification : Bool
  generated_sql : Option String
  explanation_trace : List String
  final_response : Option String
  error : Option String
deriving DecidableEq, Repr

/-- Embedding of `create_initial_state` from `state.py`. -/
def create_initial_state : AgentState :=
  { messages := []
    project_schema := none
    schema_loaded := false
    current_query := none
    intent := none
    field_selection := none
    confidence := 0
    clarifying_questions := none
    needs_clarification := false
    generated_sql := none
    explanation_trace := []
    final_response := none
    error := none }

/-- A node's partial state update (the dict a LangGraph node returns):
`none` means the key is absent from the update, `some v` that the key is
present with value `v`.  For state fields that are themselves optional the
value is again an `Option` (a node can explicitly write `None`, as
`select_fields_node` does for `clarifying_questions`). -/
structure StateUpdate where
  messages : Option (List Msg) := none
  project_schema : Option (Option ProjectSchema) := none
  schema_loaded : Option Bool := none
  current_query : Option (Option String) := none
  intent : Option (Option String) := none
  field_selection : Option (Option FieldSelection) := none
  confidence : Option Rat := none
  clarifying_questions : Option (Option (List String)) := none
  needs_clarification : Option Bool := none
  generated_sql : Option (Option String) := none
  explanation_trace : Option (List String) := none
  final_response : Option (Option String) := none
  error : Option (Option String) := none
deriving DecidableEq, Repr

/-- The empty update `{}` (every key absent). -/
def emptyUpdate : StateUpdate := {}

/-- The LangGraph reducer for `AgentState` (`state.py`): `messages` carries the
`add_messages` annotation, so update messages are appended; every other field
is plainly overwritten when present in the update and left untouched
otherwise. -/
def applyUpdate (st : AgentState) (u : StateUpdate) : AgentState :=
  { messages := st.messages ++ u.messages.getD []
    project_schema := u.project_schema.getD st.project_schema
    schema_loaded := u.schema_loaded.getD st.schema_loaded
    current_query := u.current_query.getD st.current_query
    intent := u.intent.getD st.intent
    field_selection := u.field_selection.getD st.field_selection
    confidence := u.confidence.getD st.confidence
    clarifying_questions := u.clarifying_questions.getD st.clarifying_questions
    needs_clarification := u.needs_clarification.getD st.needs_clarification
    generated_sql := u.generated_sql.getD st.generated_sql
    explanation_trace := u.explanation_trace.getD st.explanation_trace
    final_response := u.final_response.getD st.final_response
    error := u.error.getD st.error }

/-- Python `"x".join(parts)` (used for every `"\n".join` in the nodes). -/
def pyJoin (sep : String) : List String → String
  | [] => ""
  | [x] => x
  | x :: y :: xs => x ++ sep ++ pyJoin sep (y :: xs)

/-- Python f-string `{c:.0%}` on a confidence; the claims never depend on the
rounding mode, and `floor` agrees with Python on every value used here. -/
def fmtPercent (c : Rat) : String := toString (c * 100).floor ++ "%"

/-- Python repr of a string (single-quoted). -/
def pyStr (s : String) : String := "\x27" ++ s ++ "\x27"

/-- Python repr of a list of strings. -/
def pyListRepr (xs : List String) : String :=
  "[" ++ String.intercalate ", " (xs.map pyStr) ++ "]"

/-- Python repr of a string-valued dict. -/
def pyDictRepr (ps : List (String × String)) : String :=
  "\x7b" ++ String.intercalate ", " (ps.map (fun p => pyStr p.1 ++ ": " ++ pyStr p.2)) ++ "\x7d"

/-- Bool substring test (Python `pat in s`). -/
def strContains (s pat : String) : Bool := decide (pat.data <:+: s.data)

/-- Python `s.lower()`; the contents lowered in this development are ASCII,
where `Char.toLower` agrees with Python. -/
def pyLower (s : String) : String := ⟨s.data.map Char.toLower⟩

/-! ## ConfidenceGate (`src/nodes/confidence.py`) -/

/-- Embedding of `confidence_check_node` from `confidence.py`. -/
def confidence_check_node (st : AgentState) : StateUpdate :=
  let confidence := st.confidence
  let needs_clarification := st.needs_clarification
  let trace := st.explanation_trace
  if needs_clarification || confidence < 0.8 then
    { needs_clarification := some true
      explanation_trace := some (trace ++
        ["⚠️ Confidence (" ++ fmtPercent confidence ++ ") below threshold - asking for clarification"]) }
  else
    { needs_clarification := some false
      explanation_trace := some (trace ++
        ["✅ Confidence (" ++ fmtPercent confidence ++ ") sufficient - proceeding to SQL generation"]) }

/-- Embedding of `route_by_confidence` from `confidence.py`. -/
def route_by_confidence (st : AgentState) : String :=
  if st.needs_clarification then "low"
  else if st.confidence ≥ 0.8 then "high" else "low"

/-! ## ClarificationFormatter (`src/nodes/clarify.py`) -/

/-- The synthesized generic question in `ask_clarify_node`. -/
def generic_clarify_question : String :=
  "Could you provide more details about what you\x27re looking for?"

/-- The fixed first line of every clarification response. -/
def clarify_preamble : String :=
  "I want to make sure I understand your question correctly."

/-- Embedding of `ask_clarify_node` from `clarify.py`. -/
def ask_clarify_node (st : AgentState) : StateUpdate :=
  let questions0 := st.clarifying_questions.getD []
  let questions :=
    if questions0.isEmpty then [generic_clarify_question] else questions0
  let trace := st.explanation_trace ++ ["❓ Asking for clarification:"] ++
    questions.map (fun q => "   • " ++ q)
  let response_parts :=
    [clarify_preamble, ""] ++
    (match questions with
     | [q] => [q]
     | qs => ["I have a few questions:"] ++
         qs.enum.map (fun p => "  " ++ toString (p.1 + 1) ++ ". " ++ p.2))
  { final_response := some (some (pyJoin "\n" response_parts))
    explanation_trace := some trace }

/-! ## Intent routing (`src/graph.py`) -/

/-- Python truthiness test `not x` for an optional string (`None` and `""`
are falsy). -/
def pyFalsy : Option String → Bool
  | none => true
  | some s => s.isEmpty

/-- The fixed label list checked by `_route_by_intent`. -/
def intent_labels : List String :=
  ["query", "follow_up", "schema_overview", "explore_details", "field_explain"]

/-- Embedding of `_route_by_intent` from `graph.py`.  The error guard is the
Python truthiness test `if state.get("error"):`, under which both `None` and
the empty string are falsy.  (In the Python source `state.get("intent",
"query")` yields `None` when the key holds `None`; both that `None` and a
missing key end in the default branch, so the conflation of the two under
`Option.getD` is output-equivalent.) -/
def route_by_intent (st : AgentState) : String :=
  let intent := st.intent.getD "query"
  if !pyFalsy st.error then "query"
  else if intent ∈ intent_labels then intent else "query"

/-- The conditional-edge table attached to `classify_intent` in
`create_agent`. -/
def intent_edges : String → Option String
  | "query" => some "select_model"
  | "follow_up" => some "select_model"
  | "schema_overview" => some "schema_explore"
  | "explore_details" => some "schema_explore"
  | "field_explain" => some "field_explain"
  | _ => none

/-- The conditional-edge table attached to `confidence_check` in
`create_agent`. -/
def confidence_edges : String → Option String
  | "high" => some "generate_sql"
  | "low" => some "ask_clarify"
  | _ => none

/-! ## Delegate-call oracles

`adapter.invoke` is an external LLM call: it either raises (`Except.error`)
or returns a content string.  The node then runs a parse helper over the
content; the helper's `json.loads` decode is external-library behaviour and
is supplied as a `Decode` oracle: `ok r` means the JSON block decoded to a
dict read through its `.get` defaults as the record `r`, `failed` means
`json.JSONDecodeError` was raised (covering both the fenced-markdown and the
direct decode attempt). -/

inductive Decode (α : Type) where
  | ok (r : α)
  | failed
deriving DecidableEq, Repr

/-! ## IntentClassifier (`src/nodes/classify.py`) -/

/-- The structured reply expected by `_parse_classification`, read through its
`.get` defaults: `intent` defaults to `"query"`, `confidence` to `0.5`,
`reasoning` to `""`. -/
structure Classification where
  intent : String
  confidence : Rat
  reasoning : String
deriving DecidableEq, Repr

/-- The keyword-heuristic branch of `_parse_classification` (the
`json.JSONDecodeError` handler). -/
def keyword_fallback (content : String) : Classification :=
  let content_lower := pyLower content
  if strContains content_lower "schema_overview" || strContains content_lower "what data" then
    { intent := "schema_overview", confidence := 0.6, reasoning := "" }
  else if strContains content_lower "explore_details" || strContains content_lower "tell me about" then
    { intent := "explore_details", confidence := 0.6, reasoning := "" }
  else if strContains content_lower "field_explain" || strContains content_lower "what is" then
    { intent := "field_explain", confidence := 0.6, reasoning := "" }
  else if strContains content_lower "follow_up" || strContains content_lower "filter" then
    { intent := "follow_up", confidence := 0.6, reasoning := "" }
  else
    { intent := "query", confidence := 0.5, reasoning := "" }

/-- Embedding of `_parse_classification` from `classify.py`: the structured decode when it
succeeds, the keyword heuristics on the raw text otherwise. -/
def parse_classification (d : Decode Classification) (content : String) : Classification :=
  match d with
  | .ok r => r
  | .failed => keyword_fallback content

/-- The `for msg in reversed(messages)` scan in `classify_intent_node`. -/
def last_user_message (messages : List Msg) : Option String :=
  messages.reverse.findSome? (fun m =>
    match m with
    | .typed ty content => if ty == "human" then some content else none
    | .dict role content => if role == "user" then some content else none)

/-- Embedding of `classify_intent_node` from `classify.py`.  `invoke` is the
`adapter.invoke` oracle carrying the reply content, `d` the `json.loads`
decode oracle for that content. -/
def classify_intent_node (st : AgentState) (invoke : Except String String)
    (d : Decode Classification) : StateUpdate :=
  if st.messages.isEmpty then
    { error := some (some "No messages to classify") }
  else
    match last_user_message st.messages with
    | none => { error := some (some "No user message found") }
    | some last_message =>
      if last_message.isEmpty then
        { error := some (some "No user message found") }
      else
        let trace := st.explanation_trace ++
          ["🎯 Classifying intent for: \"" ++ last_message.take 50 ++ "...\""]
        match invoke with
        | .error e =>
          { intent := some (some "query")
            current_query := some (some last_message)
            confidence := some 0.5
            explanation_trace := some (trace ++ ["❌ Classification error: " ++ e])
            error := some (some e) }
        | .ok content =>
          let c := parse_classification d content
          { intent := some (some c.intent)
            current_query := some (some last_message)
            confidence := some c.confidence
            explanation_trace := some (trace ++
              ["   Intent: " ++ c.intent ++ " (confidence: " ++ fmtPercent c.confidence ++ ")",
               "   Reasoning: " ++ c.reasoning]) }

/-! ## ModelSelector (`src/nodes/select_model.py`) -/

/-- The structured reply expected by `_parse_selection`, read through its
`.get` defaults: `model`/`explore` are `None` when absent or null,
`confidence` defaults to `0.5`, `reasoning` to `""`, `clarifying_questions`
to `[]`. -/
structure ModelSelectionReply where
  model : Option String
  explore : Option String
  confidence : Rat
  reasoning : String
  clarifying_questions : List String
deriving DecidableEq, Repr

/-- Embedding of `_parse_selection` from `select_model.py`: the decoded reply, or the fixed
fallback dict on `json.JSONDecodeError`. -/
def parse_selection (d : Decode ModelSelectionReply) : ModelSelectionReply :=
  match d with
  | .ok r => r
  | .failed =>
    { model := none, explore := none, confidence := 0,
      reasoning := "Could not parse model selection response",
      clarifying_questions := [] }

/-- The synthesized generic question in `select_model_node`. -/
def generic_model_question : String :=
  "Could you tell me more about what data you\x27re looking for?"

/-- Embedding of `select_model_node` from `select_model.py`.  The prompt built from the
schema summary only feeds the oracle, so it does not appear here. -/
def select_model_node (st : AgentState)
    (invoke : Except String (Decode ModelSelectionReply)) : StateUpdate :=
  match st.project_schema with
  | none => { error := some (some "Schema not loaded") }
  | some _ =>
    let user_question := st.current_query.getD ""
    if user_question.isEmpty then
      { error := some (some "No query to process") }
    else
      let trace := st.explanation_trace ++ ["📊 Selecting best model for your question..."]
      match invoke with
      | .error e =>
        { error := some (some e)
          explanation_trace := some (trace ++ ["❌ Model selection error: " ++ e]) }
      | .ok d =>
        let selection := parse_selection d
        if pyFalsy selection.model || pyFalsy selection.explore then
          { confidence := some 0
            needs_clarification := some true
            clarifying_questions := some (some
              (if selection.clarifying_questions.isEmpty then [generic_model_question]
               else selection.clarifying_questions))
            explanation_trace := some (trace ++
              ["❓ Couldn\x27t determine the right model",
               "   Reason: " ++ selection.reasoning]) }
        else
          let model := selection.model.getD ""
          let explore := selection.explore.getD ""
          { field_selection := some (some
              { model := model, explore := explore,
                dimensions := [], measures := [], filters := [] })
            confidence := some selection.confidence
            explanation_trace := some (trace ++
              ["   Selected: " ++ model ++ "." ++ explore,
               "   Confidence: " ++ fmtPercent selection.confidence,
               "   Reason: " ++ selection.reasoning]) }

/-! ## FieldSelector (`src/nodes/select_fields.py`) -/

/-- The structured reply expected by `_parse_field_selection`, read through
its `.get` defaults (`dimensions`/`measures` `[]`, `filters` `{}` etc.,
`confidence` `0.5`). -/
structure FieldSelectionReply where
  dimensions : List String
  measures : List String
  filters : List (String × String)
  confidence : Rat
  field_mapping : List (String × String)
  reasoning : String
  uncertain_terms : List String
  clarifying_questions : List String
deriving DecidableEq, Repr

/-- Embedding of `_parse_field_selection` from `select_fields.py`: the decoded reply, or
the fixed fallback dict on `json.JSONDecodeError`. -/
def parse_field_selection (d : Decode FieldSelectionReply) : FieldSelectionReply :=
  match d with
  | .ok r => r
  | .failed =>
    { dimensions := [], measures := [], filters := [], confidence := 0,
      field_mapping := [], reasoning := "Could not parse field selection response",
      uncertain_terms := [], clarifying_questions := [] }

/-- The field names present in an explore's detail (its `dimensions` and
`measures` entries).  This is the "known field names" universe of the
anti-hallucination property. -/
def exploreFieldNames (d : ExploreDetail) : List String :=
  d.dimensions.map LookField.name ++ d.measures.map LookField.name

/-- Embedding of `select_fields_node` from `select_fields.py`. -/
def select_fields_node (st : AgentState)
    (invoke : Except String (Decode FieldSelectionReply)) : StateUpdate :=
  match st.project_schema, st.field_selection with
  | none, _ => { error := some (some "Schema or model selection missing") }
  | some _, none => { error := some (some "Schema or model selection missing") }
  | some schema, some field_selection =>
    let model := field_selection.model
    let explore := field_selection.explore
    let explore_key := model ++ "." ++ explore
    match lookupExplore schema explore_key with
    | none => { error := some (some ("Explore not found: " ++ explore_key)) }
    | some _ =>
      let trace0 := st.explanation_trace ++ ["🎯 Mapping your question to data fields..."]
      match invoke with
      | .error e =>
        { error := some (some e)
          explanation_trace := some (trace0 ++ ["❌ Field selection error: " ++ e]) }
      | .ok d =>
        let selection := parse_field_selection d
        let trace1 := trace0 ++ ["   Field mapping:"] ++
          selection.field_mapping.map (fun p => "     \"" ++ p.1 ++ "\" → " ++ p.2)
        let trace2 := trace1 ++
          ["   Dimensions: " ++ pyListRepr selection.dimensions,
           "   Measures: " ++ pyListRepr selection.measures] ++
          (if selection.filters.isEmpty then []
           else ["   Filters: " ++ pyDictRepr selection.filters]) ++
          ["   Confidence: " ++ fmtPercent selection.confidence]
        let trace3 := trace2 ++
          (if selection.uncertain_terms.isEmpty && selection.clarifying_questions.isEmpty then []
           else ["   ⚠️ Uncertain about: " ++ pyListRepr selection.uncertain_terms])
        let updated_selection : FieldSelection :=
          { model := model, explore := explore,
            dimensions := selection.dimensions,
            measures := selection.measures,
            filters := selection.filters }
        { field_selection := some (some updated_selection)
          confidence := some selection.confidence
          needs_clarification := some (selection.clarifying_questions.length > 0)
          clarifying_questions := some
            (if selection.clarifying_questions.isEmpty then none
             else some selection.clarifying_questions)
          explanation_trace := some trace3 }

/-! ## SchemaCache (`src/nodes/discover.py`) -/

/-- An `adapter.invoke_tool` result as seen through `_parse_result`:
`parsed xs` is a payload that `_parse_result` turns into the list `xs`,
`unparseable` one on which `_parse_result` returns `None` (malformed JSON,
missing content).  The external-interface contract (§6) fixes list-shaped
outputs for these four read tools. -/
inductive Payload (α : Type) where
  | parsed (xs : List α)
  | unparseable
deriving DecidableEq, Repr

/-- Embedding of `_parse_result` from `discover.py` on a tool payload. -/
def parse_result : Payload α → Option (List α)
  | .parsed xs => some xs
  | .unparseable => none

/-- A model dict from `get_models`: `name` read through `.get("name", "")`,
`label` kept optional because its default is the model's name. -/
structure ModelInfo where
  name : String
  label : Option String
deriving DecidableEq, Repr

/-- An explore dict from `get_explores`, with the same convention. -/
structure ExploreInfo where
  name : String
  label : Option String
  description : String
deriving DecidableEq, Repr

/-- The four `adapter.invoke_tool` calls made during discovery, as an oracle:
`Except.error e` models the call raising an exception with message `e`. -/
structure ToolOracle where
  get_models : Except String (Payload ModelInfo)
  get_explores : String → Except String (Payload ExploreInfo)
  get_dimensions : String → String → Except String (Payload LookField)
  get_measures : String → String → Except String (Payload LookField)
deriving Inhabited

/-- The inner `for explore in (explores_data or [])` loop of
`discover_project_node`, threading the mutated `explanation_trace`, the
global `schema["explores"]` dict and the per-model `model_explores` list.
An `Except.error` carries the exception message together with the trace
accumulated up to the raise (the Python handler reads the mutated list). -/
def discover_explores (tools : ToolOracle) (model_name : String) :
    List ExploreInfo → List String → List (String × ExploreDetail) → List ExploreSummary →
    Except (String × List String)
      (List String × List (String × ExploreDetail) × List ExploreSummary)
  | [], trace, explores_acc, model_explores => .ok (trace, explores_acc, model_explores)
  | e :: rest, trace, explores_acc, model_explores =>
    let explore_name := e.name
    let explore_label := e.label.getD e.name
    let explore_desc := e.description
    let trace1 := trace ++ ["      └── Explore: " ++ explore_name]
    match tools.get_dimensions model_name explore_name with
    | .error msg => .error (msg, trace1)
    | .ok dims_result =>
      let dimensions := (parse_result dims_result).getD []
      match tools.get_measures model_name explore_name with
      | .error msg => .error (msg, trace1)
      | .ok measures_result =>
        let measures := (parse_result measures_result).getD []
        let trace2 := trace1 ++
          ["          📐 " ++ toString dimensions.length ++ " dimensions, 📏 " ++
           toString measures.length ++ " measures"]
        let explore_key := model_name ++ "." ++ explore_name
        let detail : ExploreDetail :=
          { model := model_name, name := explore_name, label := explore_label,
            description := explore_desc, dimensions := dimensions, measures := measures }
        let summary : ExploreSummary :=
          { name := explore_name, label := explore_label, description := explore_desc,
            dimension_count := dimensions.length, measure_count := measures.length }
        discover_explores tools model_name rest trace2
          (dictInsert explores_acc explore_key detail)
          (model_explores ++ [summary])

/-- The outer `for model in models_data` loop of `discover_project_node`. -/
def discover_models (tools : ToolOracle) :
    List ModelInfo → List String → List (String × ExploreDetail) → List LookerModel →
    Except (String × List String)
      (List String × List (String × ExploreDetail) × List LookerModel)
  | [], trace, explores_acc, models_acc => .ok (trace, explores_acc, models_acc)
  | m :: rest, trace, explores_acc, models_acc =>
    let model_name := m.name
    let model_label := m.label.getD m.name
    let trace1 := trace ++ ["  └── Model: " ++ model_name]
    match tools.get_explores model_name with
    | .error msg => .error (msg, trace1)
    | .ok explores_result =>
      let explores_data := (parse_result explores_result).getD []
      match discover_explores tools model_name explores_data trace1 explores_acc [] with
      | .error e => .error e
      | .ok (trace2, explores_acc2, model_explores) =>
        discover_models tools rest trace2 explores_acc2
          (models_acc ++ [{ name := model_name, label := model_label,
                            explores := model_explores }])

/-- Embedding of `discover_project_node` from `discover.py`. -/
def discover_project_node (st : AgentState) (tools : ToolOracle) : StateUpdate :=
  if st.schema_loaded then {}
  else
    let trace0 := st.explanation_trace ++ ["🔍 Discovering project schema from Looker..."]
    match tools.get_models with
    | .error e =>
      { error := some (some ("Schema discovery failed: " ++ e))
        explanation_trace := some (trace0 ++ ["❌ Error: " ++ e]) }
    | .ok models_result =>
      let models_data := (parse_result models_result).getD []
      if models_data.isEmpty then
        { error := some (some "No models found in Looker")
          explanation_trace := some (trace0 ++ ["❌ No models found"]) }
      else
        let trace1 := trace0 ++ ["📊 Found " ++ toString models_data.length ++ " models"]
        match discover_models tools models_data trace1 [] [] with
        | .error (e, tr) =>
          { error := some (some ("Schema discovery failed: " ++ e))
            explanation_trace := some (tr ++ ["❌ Error: " ++ e]) }
        | .ok (tr, explores, models) =>
          { project_schema := some (some { models := models, explores := explores })
            schema_loaded := some true
            explanation_trace := some (tr ++ ["✅ Schema discovery complete"]) }

/-! ## Session reset (`src/cli.py`, `ChatSession.clear_history`) -/

/-- Embedding of `ChatSession.clear_history` from `cli.py`: a fresh initial state with only the schema
fields carried over. -/
def clear_history (st : AgentState) : AgentState :=
  { create_initial_state with
    project_schema := st.project_schema
    schema_loaded := st.schema_loaded }

/-! ## ResponseFormatter and the clarification path of the graph -/

/-- Modelled from the spec: the `format_response_node` referenced by
`graph.py` (its module `src/nodes/format_response.py` is missing from the
source tree).  Spec §4.8: the ResponseFormatter takes whichever terminal
node ran and produces the single `final_response` string plus the finalized
`explanation_trace`, performing no business logic — so a `final_response`
already set by its terminal node is passed through unchanged. -/
def format_response_node (st : AgentState) : StateUpdate :=
  { final_response := some st.final_response
    explanation_trace := some st.explanation_trace }

/-- State after the `confidence_check` node ran and its update was folded in
by the reducer. -/
def afterGate (st : AgentState) : AgentState :=
  applyUpdate st (confidence_check_node st)

/-- State after the `ask_clarify` node ran on the post-gate state. -/
def afterClarify (st : AgentState) : AgentState :=
  applyUpdate (afterGate st) (ask_clarify_node (afterGate st))

/-- State at turn end of the clarification branch: `ask_clarify` followed by
`format_response` (edge `ask_clarify → format_response → END` in
`create_agent`). -/
def afterFormat (st : AgentState) : AgentState :=
  applyUpdate (afterClarify st) (format_response_node (afterClarify st))

/-! ## Concrete fixtures used by the theorems below -/

/-- Concrete state exercising the `"query"` fallback of `_route_by_intent`. -/
def stC10 : AgentState := { create_initial_state with intent := some "bogus_intent" }

/-- A session state holding an already-discovered schema. -/
def stC8 : AgentState :=
  { create_initial_state with
    schema_loaded := true
    project_schema := some { models := [], explores := [] } }

/-- A tool oracle on which every call would raise, so any fetch attempted by
the second discovery run would be visible as an error. -/
def toolsOffline : ToolOracle :=
  { get_models := .error "offline"
    get_explores := fun _ => .error "offline"
    get_dimensions := fun _ _ => .error "offline"
    get_measures := fun _ _ => .error "offline" }

/-- Concrete state with two clarifying questions, exercising the
enumerated-list branch. -/
def stC7 : AgentState :=
  { create_initial_state with
    clarifying_questions := some ["Which region?", "Which year?"] }

/-- Concrete low-confidence state after field selection. -/
def stC3 : AgentState := { create_initial_state with confidence := 0.5 }

/-- Concrete state with a loaded (trivial) schema and a pending query. -/
def stC6 : AgentState :=
  { create_initial_state with
    project_schema := some { models := [], explores := [] }
    current_query := some "show sales" }

/-- A structured reply that names an explore but no model and supplies no
clarifying questions. -/
def replyC6 : ModelSelectionReply :=
  { model := none, explore := some "orders", confidence := 0.7,
    reasoning := "unsure which model fits", clarifying_questions := [] }

/-- State holding one user message, shared input of the two classification
runs below. -/
def stC4 : AgentState :=
  { create_initial_state with messages := [Msg.dict "user" "show me the schema"] }

/-- Content that is not JSON, so the structured decode fails and the keyword
heuristics decode it. -/
def contentHeuristicC4 : String := "schema_overview"

/-- Content carrying a well-formed JSON block that decodes to the same
classification the heuristics produce for `contentHeuristicC4`. -/
def contentStructuredC4 : String :=
  "\x7b\"intent\": \"schema_overview\", \"confidence\": 0.6\x7d"

/-- State holding one LangChain-style user message. -/
def stC4w : AgentState :=
  { create_initial_state with messages := [Msg.typed "human" "sales by region"] }

/-- Explore detail with exactly two known field names, `region` and
`total_sales`. -/
def detC1 : ExploreDetail :=
  { model := "m", name := "e", label := "E", description := ""
    dimensions := [{ name := "region", label := "Region", ftype := "string", description := "" }]
    measures := [{ name := "total_sales", label := "Total Sales", ftype := "number", description := "" }] }

def schC1 : ProjectSchema := { models := [], explores := [("m.e", detC1)] }

def fsC1 : FieldSelection :=
  { model := "m", explore := "e", dimensions := [], measures := [], filters := [] }

def stC1 : AgentState :=
  { create_initial_state with
    project_schema := some schC1
    field_selection := some fsC1
    current_query := some "total sales by bogus" }

/-- A delegate reply inventing the dimension `bogus_field`, with high
confidence and no uncertain terms. -/
def replyC1 : FieldSelectionReply :=
  { dimensions := ["bogus_field"], measures := ["total_sales"], filters := []
    confidence := 0.9, field_mapping := [], reasoning := ""
    uncertain_terms := [], clarifying_questions := [] }

/-- Model infos used by the discovery scenarios. -/
def financeInfo : ModelInfo := { name := "finance", label := some "Finance" }

def salesInfo : ModelInfo := { name := "sales", label := some "Sales" }

def ordersInfo : ExploreInfo :=
  { name := "orders", label := some "Orders", description := "order lines" }

def regionField : LookField :=
  { name := "region", label := "Region", ftype := "string", description := "" }

def salesMeasure : LookField :=
  { name := "total_sales", label := "Total Sales", ftype := "number", description := "" }

/-- Oracle on which `get_explores` raises for model `finance` and succeeds
for model `sales`. -/
def toolsThrowFinance : ToolOracle :=
  { get_models := .ok (.parsed [financeInfo, salesInfo])
    get_explores := fun m =>
      if m == "finance" then .error "boom"
      else if m == "sales" then .ok (.parsed [ordersInfo])
      else .ok .unparseable
    get_dimensions := fun _ _ => .ok (.parsed [regionField])
    get_measures := fun _ _ => .ok (.parsed [salesMeasure]) }

/-- Oracle on which `get_explores` returns an unparseable payload for
`finance` (no exception raised) and succeeds for `sales`. -/
def toolsFinanceUnparseable : ToolOracle :=
  { get_models := .ok (.parsed [financeInfo, salesInfo])
    get_explores := fun m =>
      if m == "sales" then .ok (.parsed [ordersInfo]) else .ok .unparseable
    get_dimensions := fun _ _ => .ok (.parsed [regionField])
    get_measures := fun _ _ => .ok (.parsed [salesMeasure]) }

/-! ## Helper lemmas -/

theorem pyJoin_cons (sep x y : String) (xs : List String) :
    pyJoin sep (x :: y :: xs) = x ++ sep ++ pyJoin sep (y :: xs) := rfl

/-- The first part of a join is a prefix of the join. -/
theorem pyJoin_prefix_head (sep a : String) (rest : List String) :
    a.data <+: (pyJoin sep (a :: rest)).data := by
  cases rest with
  | nil => exact List.prefix_refl _
  | cons y ys =>
    rw [pyJoin_cons, String.data_append, String.data_append, List.append_assoc]
    exact List.prefix_append _ _

/-- Closed form of `"\n".join([a, "", c])`. -/
theorem pyJoin_two_blank (a c : String) :
    pyJoin "\n" [a, "", c] = a ++ "\n\n" ++ c := by
  apply String.ext
  show ((a ++ "\n") ++ (("" ++ "\n") ++ c)).data = ((a ++ "\n\n") ++ c).data
  simp only [String.data_append]
  show a.data ++ ['\n'] ++ (([] ++ ['\n']) ++ c.data) = a.data ++ ['\n', '\n'] ++ c.data
  simp

/-! ## Theorems for the claims -/

/-- C5:  `route_by_confidence` is a pure function of the state (it is a
plain Lean function of `st`, with no oracle argument): it returns `"low"`
when `needs_clarification` is set, else `"low"` exactly when the confidence
is below the fixed constant `0.8`, else `"high"`. -/
theorem route_by_confidence_spec (st : AgentState) :
    route_by_confidence st =
      (if st.needs_clarification = true then "low"
       else if st.confidence < 0.8 then "low" else "high") := by
  unfold route_by_confidence
  cases h : st.needs_clarification with
  | true => simp
  | false =>
    simp only [Bool.false_eq_true, if_false]
    rcases lt_or_le st.confidence 0.8 with h' | h'
    · rw [if_neg (not_le.mpr h'), if_pos h']
    · rw [if_pos h', if_neg (not_lt.mpr h')]

/-- C9:  `clear_history` keeps exactly the schema state
(`project_schema`, `schema_loaded`) and resets every other field of the
conversation state to its `create_initial_state` value. -/
theorem clear_history_frame (st : AgentState) :
    (clear_history st).project_schema = st.project_schema ∧
    (clear_history st).schema_loaded = st.schema_loaded ∧
    (clear_history st).messages = create_initial_state.messages ∧
    (clear_history st).current_query = create_initial_state.current_query ∧
    (clear_history st).intent = create_initial_state.intent ∧
    (clear_history st).field_selection = create_initial_state.field_selection ∧
    (clear_history st).confidence = create_initial_state.confidence ∧
    (clear_history st).clarifying_questions = create_initial_state.clarifying_questions ∧
    (clear_history st).needs_clarification = create_initial_state.needs_clarification ∧
    (clear_history st).generated_sql = create_initial_state.generated_sql ∧
    (clear_history st).explanation_trace = create_initial_state.explanation_trace ∧
    (clear_history st).final_response = create_initial_state.final_response ∧
    (clear_history st).error = create_initial_state.error :=
  ⟨rfl, rfl, rfl, rfl, rfl, rfl, rfl, rfl, rfl, rfl, rfl, rfl, rfl⟩

/-- C10:  `_route_by_intent` is total: for every state it returns one of
the five branch keys mapped by the graph's conditional edges, and it falls
back to `"query"` when the intent is missing, outside the label set, or when
an error is set (truthy — a `None` or empty-string error does not count,
matching `if state.get("error"):`). -/
theorem route_by_intent_total (st : AgentState) :
    route_by_intent st ∈ intent_labels ∧
    (intent_edges (route_by_intent st)).isSome = true ∧
    ((st.intent = none ∨ pyFalsy st.error = false ∨
        (∀ i, st.intent = some i → i ∉ intent_labels)) →
      route_by_intent st = "query") := by
  have hq : "query" ∈ intent_labels := by decide
  have hedge : ∀ x ∈ intent_labels, (intent_edges x).isSome = true := by decide
  unfold route_by_intent
  by_cases herr : (!pyFalsy st.error) = true
  · simp only [herr, if_true]
    exact ⟨hq, hedge _ hq, fun _ => by trivial⟩
  · simp only [herr, if_false]
    by_cases hmem : st.intent.getD "query" ∈ intent_labels
    · rw [if_pos hmem]
      refine ⟨hmem, hedge _ hmem, ?_⟩
      rintro (hnone | habs | hnot)
      · rw [hnone]; rfl
      · rw [habs] at herr
        exact absurd (by decide) herr
      · cases hi : st.intent with
        | none => rfl
        | some i =>
          exact absurd (by rwa [hi, Option.getD_some] at hmem) (hnot i hi)
    · rw [if_neg hmem]
      exact ⟨hq, hedge _ hq, fun _ => by trivial⟩

theorem route_by_intent_total_witness :
    (stC10.intent = none ∨ pyFalsy stC10.error = false ∨
      (∀ i, stC10.intent = some i → i ∉ intent_labels)) ∧
    route_by_intent stC10 = "query" := by
  have h : stC10.intent = none ∨ pyFalsy stC10.error = false ∨
      (∀ i, stC10.intent = some i → i ∉ intent_labels) := by
    refine Or.inr (Or.inr ?_)
    intro i hi
    rw [show stC10.intent = some "bogus_intent" from rfl] at hi
    injection hi with h
    rw [← h]; decide
  exact ⟨h, (route_by_intent_total stC10).2.2 h⟩

/-- C8:  Discovery is idempotent once the schema is loaded: with
`schema_loaded = true` the node returns the empty update — independently of
the tool oracle, so no fetch can be observed — and applying the empty update
through the reducer leaves the state (the cached schema included)
unchanged. -/
theorem discover_idempotent (st : AgentState) (tools : ToolOracle)
    (h : st.schema_loaded = true) :
    discover_project_node st tools = emptyUpdate ∧
    applyUpdate st emptyUpdate = st := by
  constructor
  · unfold discover_project_node
    rw [h]
    rfl
  · cases st
    simp [applyUpdate, emptyUpdate]

theorem discover_idempotent_witness :
    stC8.schema_loaded = true ∧
    (discover_project_node stC8 toolsOffline = emptyUpdate ∧
     applyUpdate stC8 emptyUpdate = stC8) :=
  ⟨rfl, discover_idempotent stC8 toolsOffline rfl⟩

/-- A string starting with the clarification preamble is non-empty. -/
theorem preamble_prefixed_ne_empty (s : String)
    (h : clarify_preamble.data <+: s.data) : s ≠ "" := by
  intro he
  subst he
  rcases h with ⟨t, ht⟩
  have h2 : clarify_preamble.data ++ t = [] := ht
  exact absurd (List.append_eq_nil.mp h2).1 (by decide)

/-- Every clarification response contains the word `question` (it starts with
the fixed preamble). -/
theorem ask_clarify_contains_question (st : AgentState) :
    ∃ s, (ask_clarify_node st).final_response = some (some s) ∧
      strContains s "question" = true := by
  refine ⟨_, rfl, ?_⟩
  have hpre := pyJoin_prefix_head "\n" clarify_preamble
  have hq : "question".data <:+: clarify_preamble.data := by decide
  show decide _ = true
  exact decide_eq_true (hq.trans (hpre _).isInfix)

/-- Third part of a join of at least three parts, as a prefix. -/
theorem pyJoin_prefix_third (a b c : String) (items : List String) :
    (a ++ "\n" ++ b ++ "\n" ++ c).data <+: (pyJoin "\n" (a :: b :: c :: items)).data := by
  obtain ⟨t, ht⟩ := pyJoin_prefix_head "\n" c items
  refine ⟨t, ?_⟩
  rw [pyJoin_cons, pyJoin_cons]
  simp only [String.data_append]
  rw [← ht]
  simp [List.append_assoc]

/-- C7:  `ask_clarify_node` always produces a non-empty response; with no
questions on state it synthesizes the single generic question (direct
statement form); a single question is presented as a direct statement and
two or more as an enumerated list introduced by a distinct header. -/
theorem ask_clarify_spec (st : AgentState) :
    ∃ s, (ask_clarify_node st).final_response = some (some s) ∧ s ≠ "" ∧
      ((st.clarifying_questions = none ∨ st.clarifying_questions = some []) →
        s = clarify_preamble ++ "\n\n" ++ generic_clarify_question) ∧
      (∀ q, st.clarifying_questions = some [q] →
        s = clarify_preamble ++ "\n\n" ++ q) ∧
      (∀ q₁ q₂ rest, st.clarifying_questions = some (q₁ :: q₂ :: rest) →
        (clarify_preamble ++ "\n\nI have a few questions:").data <+: s.data) := by
  refine ⟨_, rfl, ?_, ?_, ?_, ?_⟩
  · exact preamble_prefixed_ne_empty _ (pyJoin_prefix_head _ _ _)
  · intro hnone
    have hq : st.clarifying_questions.getD [] = [] := by
      rcases hnone with h | h <;> rw [h] <;> rfl
    rw [hq]
    exact pyJoin_two_blank _ _
  · intro q hq1
    rw [hq1]
    exact pyJoin_two_blank _ _
  · intro q₁ q₂ rest hqs
    rw [hqs]
    simp only [Option.getD_some, List.isEmpty_cons, Bool.false_eq_true, if_false,
      List.cons_append, List.nil_append]
    have hT : (clarify_preamble ++ "\n\nI have a few questions:").data =
        (clarify_preamble ++ "\n" ++ "" ++ "\n" ++ "I have a few questions:").data := by
      decide
    rw [hT]
    exact pyJoin_prefix_third _ _ _ _

theorem ask_clarify_spec_witness :
    stC7.clarifying_questions = some ["Which region?", "Which year?"] ∧
    ∃ s, (ask_clarify_node stC7).final_response = some (some s) ∧ s ≠ "" ∧
      (clarify_preamble ++ "\n\nI have a few questions:").data <+: s.data := by
  refine ⟨rfl, ?_⟩
  obtain ⟨s, h1, h2, _, _, h5⟩ := ask_clarify_spec stC7
  exact ⟨s, h1, h2, h5 "Which region?" "Which year?" [] rfl⟩

/-- C3:  After field selection, when confidence is below `0.8` or
`needs_clarification` is set, the confidence gate routes to `ask_clarify`
and never to `generate_sql` (query materialization), and the clarification
response always carries explicit question text (the fixed question preamble,
and hence the substring `question`). -/
theorem confidence_gate_clarifies (st : AgentState)
    (h : st.confidence < 0.8 ∨ st.needs_clarification = true) :
    route_by_confidence (afterGate st) = "low" ∧
    confidence_edges (route_by_confidence (afterGate st)) = some "ask_clarify" ∧
    confidence_edges (route_by_confidence (afterGate st)) ≠ some "generate_sql" ∧
    ∃ s, (afterFormat st).final_response = some s ∧
      (strContains s "?" || strContains s "question") = true := by
  have hst : (afterGate st).needs_clarification = true := by
    unfold afterGate confidence_check_node
    rcases h with h | h
    · rcases hb : st.needs_clarification with _ | _
      · rw [hb] at *
        simp [applyUpdate, h]
      · simp [hb, applyUpdate]
    · simp [h, applyUpdate]
  have hroute : route_by_confidence (afterGate st) = "low" := by
    unfold route_by_confidence
    rw [hst]
    rfl
  refine ⟨hroute, by rw [hroute]; decide, by rw [hroute]; decide, ?_⟩
  obtain ⟨s, h1, h2⟩ := ask_clarify_contains_question (afterGate st)
  have hac : (afterClarify st).final_response = some s := by
    unfold afterClarify
    simp [applyUpdate, h1]
  refine ⟨s, ?_, by rw [h2, Bool.or_true]⟩
  unfold afterFormat
  simp [applyUpdate, format_response_node, hac]

theorem confidence_gate_clarifies_witness :
    (stC3.confidence < 0.8 ∨ stC3.needs_clarification = true) ∧
    (route_by_confidence (afterGate stC3) = "low" ∧
     confidence_edges (route_by_confidence (afterGate stC3)) = some "ask_clarify" ∧
     confidence_edges (route_by_confidence (afterGate stC3)) ≠ some "generate_sql" ∧
     ∃ s, (afterFormat stC3).final_response = some s ∧
       (strContains s "?" || strContains s "question") = true) :=
  ⟨Or.inl (by norm_num [stC3, create_initial_state]),
   confidence_gate_clarifies stC3 (Or.inl (by norm_num [stC3, create_initial_state]))⟩

/-- C6: when the structured reply omits the model or the explore,
`select_model_node` forces confidence to `0`, sets `needs_clarification`,
and always supplies a non-empty clarifying-question list (synthesizing the
generic question when the reply carries none). -/
theorem select_model_forces_question (st : AgentState) (r : ModelSelectionReply)
    (h1 : st.project_schema ≠ none)
    (h2 : (st.current_query.getD "").isEmpty = false)
    (h3 : r.model = none ∨ r.explore = none) :
    (select_model_node st (.ok (.ok r))).confidence = some 0 ∧
    (select_model_node st (.ok (.ok r))).needs_clarification = some true ∧
    ∃ qs, (select_model_node st (.ok (.ok r))).clarifying_questions = some (some qs) ∧
      qs ≠ [] := by
  rcases hps : st.project_schema with _ | sch
  · exact absurd hps h1
  · have hqe : (st.current_query.getD "").isEmpty = false := h2
    have hfal : (pyFalsy r.model || pyFalsy r.explore) = true := by
      rcases h3 with h | h <;> rw [h] <;> simp [pyFalsy]
    have hnode : select_model_node st (.ok (.ok r)) =
        { confidence := some 0
          needs_clarification := some true
          clarifying_questions := some (some
            (if r.clarifying_questions.isEmpty = true then [generic_model_question]
             else r.clarifying_questions))
          explanation_trace := some ((st.explanation_trace ++
            ["📊 Selecting best model for your question..."]) ++
            ["❓ Couldn\x27t determine the right model",
             "   Reason: " ++ r.reasoning]) } := by
      unfold select_model_node
      rw [hps]
      simp only [hqe, Bool.false_eq_true, if_false, parse_selection, hfal, if_true]
    rw [hnode]
    refine ⟨rfl, rfl,
      (if r.clarifying_questions.isEmpty = true then [generic_model_question]
       else r.clarifying_questions), rfl, ?_⟩
    rcases he : r.clarifying_questions.isEmpty
    · simp only [Bool.false_eq_true, if_false]
      intro hnil
      rw [hnil] at he
      exact absurd he (by decide)
    · simp only [if_true]
      intro hnil
      exact absurd hnil (by decide)

theorem select_model_forces_question_witness :
    stC6.project_schema ≠ none ∧ (stC6.current_query.getD "").isEmpty = false ∧
    (replyC6.model = none ∨ replyC6.explore = none) ∧
    ((select_model_node stC6 (.ok (.ok replyC6))).confidence = some 0 ∧
     (select_model_node stC6 (.ok (.ok replyC6))).needs_clarification = some true ∧
     ∃ qs, (select_model_node stC6 (.ok (.ok replyC6))).clarifying_questions =
         some (some qs) ∧ qs ≠ []) :=
  ⟨by decide, by decide, Or.inl rfl,
   select_model_forces_question stC6 replyC6 (by decide) (by decide) (Or.inl rfl)⟩

/-- C4 counterexample: a run decoded by the keyword-heuristic fallback
produces exactly the same update — explanation trace included — as a run
whose structured parse succeeded with the same classification, so a trace
reader cannot distinguish the two decoder paths. -/
theorem classify_fallback_untagged :
    parse_classification Decode.failed contentHeuristicC4 =
      { intent := "schema_overview", confidence := 0.6, reasoning := "" } ∧
    classify_intent_node stC4 (.ok contentHeuristicC4) Decode.failed =
      classify_intent_node stC4 (.ok contentStructuredC4)
        (Decode.ok { intent := "schema_overview", confidence := 0.6, reasoning := "" }) := by
  constructor
  · rfl
  · rfl

/-- C4 amended: the fallback is silent — whenever the keyword heuristics
decode a content to classification `r`, the node's whole update (trace
included) equals that of a run whose structured parse returned `r`, so the
decoder path is not recorded in the trace. -/
theorem classify_fallback_silent (st : AgentState) (c₁ c₂ : String)
    (r : Classification) (h : keyword_fallback c₁ = r) :
    classify_intent_node st (.ok c₁) Decode.failed =
      classify_intent_node st (.ok c₂) (Decode.ok r) := by
  unfold classify_intent_node
  simp only [parse_classification, h]

theorem classify_fallback_silent_witness :
    keyword_fallback "no structured block here" =
      { intent := "query", confidence := 0.5, reasoning := "" } ∧
    classify_intent_node stC4w (.ok "no structured block here") Decode.failed =
      classify_intent_node stC4w (.ok "\x7b\"intent\": \"query\"\x7d")
        (Decode.ok { intent := "query", confidence := 0.5, reasoning := "" }) :=
  ⟨rfl, classify_fallback_silent stC4w _ _ _ rfl⟩

/-- C1 counterexample: the invented name `bogus_field` is not dropped — it is
returned in the field selection although it is not among the explore's known
field names — confidence stays at the reply's `0.9` (not demoted to `0.3` or
below), and the trace gains no uncertain-term entry. -/
theorem select_fields_keeps_invented_name :
    (select_fields_node stC1 (.ok (.ok replyC1))).field_selection =
      some (some { model := "m", explore := "e", dimensions := ["bogus_field"],
                   measures := ["total_sales"], filters := [] }) ∧
    (select_fields_node stC1 (.ok (.ok replyC1))).confidence = some 0.9 ∧
    ("bogus_field" ∈ exploreFieldNames detC1 → False) ∧
    ¬((0.9 : Rat) ≤ 0.3) ∧
    (select_fields_node stC1 (.ok (.ok replyC1))).explanation_trace =
      some ["🎯 Mapping your question to data fields...",
            "   Field mapping:",
            "   Dimensions: [\x27bogus_field\x27]",
            "   Measures: [\x27total_sales\x27]",
            "   Confidence: " ++ fmtPercent replyC1.confidence] := by
  refine ⟨rfl, rfl, by decide, by norm_num, rfl⟩

/-- C1 amended: `select_fields_node` copies the parsed reply's dimensions,
measures and filters into the field selection verbatim and returns the
parsed confidence unchanged — no post-hoc validation against the explore's
field names takes place. -/
theorem select_fields_passthrough (st : AgentState) (sch : ProjectSchema)
    (fs : FieldSelection) (det : ExploreDetail) (r : FieldSelectionReply)
    (h1 : st.project_schema = some sch)
    (h2 : st.field_selection = some fs)
    (h3 : lookupExplore sch (fs.model ++ "." ++ fs.explore) = some det) :
    (select_fields_node st (.ok (.ok r))).field_selection =
      some (some { model := fs.model, explore := fs.explore,
                   dimensions := r.dimensions, measures := r.measures,
                   filters := r.filters }) ∧
    (select_fields_node st (.ok (.ok r))).confidence = some r.confidence := by
  unfold select_fields_node
  rw [h1, h2]
  simp only [h3, parse_field_selection]
  exact ⟨by trivial, by trivial⟩

theorem select_fields_passthrough_witness :
    stC1.project_schema = some schC1 ∧ stC1.field_selection = some fsC1 ∧
    lookupExplore schC1 (fsC1.model ++ "." ++ fsC1.explore) = some detC1 ∧
    ((select_fields_node stC1 (.ok (.ok replyC1))).field_selection =
       some (some { model := fsC1.model, explore := fsC1.explore,
                    dimensions := replyC1.dimensions, measures := replyC1.measures,
                    filters := replyC1.filters }) ∧
     (select_fields_node stC1 (.ok (.ok replyC1))).confidence =
       some replyC1.confidence) :=
  ⟨rfl, rfl, by decide,
   select_fields_passthrough stC1 schC1 fsC1 detC1 replyC1 rfl rfl (by decide)⟩

/-- C2 counterexample: when `get_explores` for `finance` raises, the single
`try`/`except` around the whole discovery loop aborts everything — the error
is set, `schema_loaded` is not set, no schema (not even the other model) is
cached — contradicting the claimed per-explore partial-success policy. -/
theorem discover_subfetch_throw_aborts :
    (discover_project_node create_initial_state toolsThrowFinance).error =
      some (some "Schema discovery failed: boom") ∧
    (discover_project_node create_initial_state toolsThrowFinance).schema_loaded = none ∧
    (discover_project_node create_initial_state toolsThrowFinance).project_schema = none ∧
    (discover_project_node create_initial_state toolsThrowFinance).explanation_trace =
      some ["🔍 Discovering project schema from Looker...",
            "📊 Found 2 models",
            "  └── Model: finance",
            "❌ Error: boom"] := by
  refine ⟨rfl, rfl, rfl, rfl⟩

/-- C2 amended: discovery is all-or-nothing with respect to exceptions — a
run either succeeds as a whole (no error, `schema_loaded := true`, a schema
cached) or fails as a whole (error set, nothing cached), so a raising
sub-fetch aborts the entire discovery; only a sub-fetch whose payload is
merely unparseable degrades gracefully, with that data omitted while every
other model and explore is still cached and `schema_loaded` is set. -/
theorem discover_failure_policy :
    (∀ (st : AgentState) (tools : ToolOracle), st.schema_loaded = false →
      ((discover_project_node st tools).error = none ∧
       (discover_project_node st tools).schema_loaded = some true ∧
       (discover_project_node st tools).project_schema ≠ none) ∨
      ((discover_project_node st tools).error ≠ none ∧
       (discover_project_node st tools).schema_loaded = none ∧
       (discover_project_node st tools).project_schema = none)) ∧
    ((discover_project_node create_initial_state toolsFinanceUnparseable).schema_loaded =
       some true ∧
     (discover_project_node create_initial_state toolsFinanceUnparseable).error = none ∧
     (discover_project_node create_initial_state toolsFinanceUnparseable).project_schema =
       some (some
         { models :=
             [{ name := "finance", label := "Finance", explores := [] },
              { name := "sales", label := "Sales",
                explores := [{ name := "orders", label := "Orders",
                               description := "order lines",
                               dimension_count := 1, measure_count := 1 }] }]
           explores :=
             [("sales.orders",
               { model := "sales", name := "orders", label := "Orders",
                 description := "order lines",
                 dimensions := [regionField], measures := [salesMeasure] })] })) := by
  constructor
  · intro st tools h
    unfold discover_project_node
    rw [h]
    simp only [Bool.false_eq_true, if_false]
    cases hm : tools.get_models with
    | error e =>
      right
      exact ⟨by simp, by trivial, by trivial⟩
    | ok models_result =>
      cases hE : ((parse_result models_result).getD []).isEmpty with
      | true =>
        simp only [hE, if_true]
        right
        exact ⟨by simp, by trivial, by trivial⟩
      | false =>
        simp only [hE, Bool.false_eq_true, if_false]
        cases hd : discover_models tools ((parse_result models_result).getD [])
            ((st.explanation_trace ++ ["🔍 Discovering project schema from Looker..."]) ++
             ["📊 Found " ++ toString ((parse_result models_result).getD []).length ++
              " models"]) [] [] with
        | error pr =>
          obtain ⟨e, tr⟩ := pr
          right
          exact ⟨by simp, by trivial, by trivial⟩
        | ok res =>
          obtain ⟨tr, explores, models⟩ := res
          left
          exact ⟨by trivial, by trivial, by simp⟩
  · refine ⟨rfl, rfl, rfl⟩

theorem discover_failure_policy_witness :
    create_initial_state.schema_loaded = false ∧
    (((discover_project_node create_initial_state toolsFinanceUnparseable).error = none ∧
      (discover_project_node create_initial_state toolsFinanceUnparseable).schema_loaded =
        some true ∧
      (discover_project_node create_initial_state toolsFinanceUnparseable).project_schema ≠
        none) ∨
     ((discover_project_node create_initial_state toolsFinanceUnparseable).error ≠ none ∧
      (discover_project_node create_initial_state toolsFinanceUnparseable).schema_loaded =
        none ∧
      (discover_project_node create_initial_state toolsFinanceUnparseable).project_schema =
        none)) :=
  ⟨rfl, discover_failure_policy.1 create_initial_state toolsFinanceUnparseable rfl⟩

end AgentLooker
